import Mathlib

/-!
Verification of the `AdventOfCode_2025` automation scripts.

The repository consists of two Python scripts:

* `AOC_TEMPLATE.py` — a per-day solution harness: resolves a session cookie,
  fetches and caches the puzzle input (`input.txt`, `input_NN.txt`,
  `input_N.txt`), and submits answers, classifying the response body by
  substring checks.
* `RUN_EVERY_DAY.py` — a range driver: for each day it fetches the puzzle
  page, persists instruction/example/input files, scaffolds Python and Rust
  solution stubs, and registers Rust binaries in `Cargo.toml`.

This file gives a shallow embedding of those scripts.  HTTP responses are
modelled as status/body pairs, the parsed puzzle page as the list of its
`article` elements plus the optional first `pre code` block (the HTML
parser and the Markdown converter are external collaborators, abstracted as
parameters), and the filesystem as a map from path to optional content,
with the side effects of a call recorded as an explicit event list.
-/

/-! ## Python string primitives -/

/-- The character class of Python's `\s` / default `str.strip` (ASCII part):
space, tab, newline, carriage return, vertical tab, form feed. -/
def pyWs (c : Char) : Bool :=
  c = ' ' || c = '\t' || c = '\n' || c = '\r' || c = '\x0b' || c = '\x0c'

/-- Drop characters satisfying `p` from the left end (Python `str.lstrip`). -/
def lstripBy (p : Char → Bool) (s : String) : String :=
  ⟨s.data.dropWhile p⟩

/-- Drop characters satisfying `p` from the right end (Python `str.rstrip`). -/
def rstripBy (p : Char → Bool) (s : String) : String :=
  ⟨(s.data.reverse.dropWhile p).reverse⟩

/-- Python `str.strip()` with no argument: whitespace from both ends. -/
def pyStrip (s : String) : String :=
  lstripBy pyWs (rstripBy pyWs s)

/-- Python `str.rstrip("\n")`: all trailing newline characters removed. -/
def rstripNL (s : String) : String :=
  rstripBy (fun c => c = '\n') s

/-- Python `str.strip("\n")`: newline characters removed from both ends. -/
def stripNLBoth (s : String) : String :=
  lstripBy (fun c => c = '\n') (rstripBy (fun c => c = '\n') s)

/-- Python `str.rstrip()` with no argument: trailing whitespace removed. -/
def rstripWs (s : String) : String :=
  rstripBy pyWs s

/-- Python's substring test `needle in haystack`. -/
def strContains (needle hay : String) : Bool :=
  hay.data.tails.any fun t => needle.data.isPrefixOf t

/-- One fuel-indexed step list of Python `str.replace`: replace non-overlapping
occurrences of `pat` left to right.  `fuel` bounds the recursion; callers pass
the length of the scanned list, which suffices for the non-empty patterns used
by the scripts (each step consumes at least one character). -/
def replaceCore (pat rep : List Char) : Nat → List Char → List Char
  | 0, cs => cs
  | _ + 1, [] => []
  | fuel + 1, c :: rest =>
    if pat.isPrefixOf (c :: rest) then
      rep ++ replaceCore pat rep fuel ((c :: rest).drop pat.length)
    else
      c :: replaceCore pat rep fuel rest

/-- Python `s.replace(pat, rep)` for a non-empty literal pattern. -/
def pyReplace (s pat rep : String) : String :=
  ⟨replaceCore pat.data rep.data s.data.length s.data⟩

/-- Python `f"{n:02d}"`: decimal rendering zero-padded to width two. -/
def pad2 (n : Nat) : String :=
  if n < 10 then "0" ++ toString n else toString n

/-! ## `AOC_TEMPLATE.py`: the submission verdict classifier (`submit`) -/

/-- The verdict enumeration of spec section 3. -/
inductive Verdict where
  | OK
  | WRONG_TOO_LOW
  | WRONG_TOO_HIGH
  | WRONG
  | ALREADY_SOLVED
  | RATE_LIMITED
deriving DecidableEq

/-- The string the code prints and returns for each verdict: the literal
verdict strings assigned in `submit` (`AOC_TEMPLATE.py`). -/
def verdictMessage : Verdict → String
  | Verdict.RATE_LIMITED => "TOO MANY REQUESTS"
  | Verdict.WRONG_TOO_LOW => "WRONG (TOO LOW)"
  | Verdict.WRONG_TOO_HIGH => "WRONG (TOO HIGH)"
  | Verdict.WRONG => "WRONG"
  | Verdict.ALREADY_SOLVED => "ALREADY SOLVED"
  | Verdict.OK => "OK"

/-- The response-body classification of `submit` (`AOC_TEMPLATE.py`,
lines 143-155): the chain of Python `in` checks, verbatim. -/
def submit_verdict (text : String) : String :=
  if strContains "You gave an answer too recently" text then "TOO MANY REQUESTS"
  else if strContains "not the right answer" text then
    if strContains "too low" text then "WRONG (TOO LOW)"
    else if strContains "too high" text then "WRONG (TOO HIGH)"
    else "WRONG"
  else if strContains "You don\x27t seem to be solving the right level." text then "ALREADY SOLVED"
  else "OK"

/-- C1: for every submission response body, `submit` classifies by the ordered
substring checks of the spec: the rate-limit phrase is checked first and wins
regardless of any other content; then, under the generic wrong-answer phrase,
the refinements "too low" (first) and "too high" give the refined wrong
verdicts and their absence the generic WRONG; then the already-solved phrase;
any other body is treated as accepted (OK). -/
theorem submit_classifies_by_ordered_substrings (text : String) :
    (strContains "You gave an answer too recently" text = true →
      submit_verdict text = verdictMessage Verdict.RATE_LIMITED) ∧
    (strContains "You gave an answer too recently" text = false →
      strContains "not the right answer" text = true →
      strContains "too low" text = true →
      submit_verdict text = verdictMessage Verdict.WRONG_TOO_LOW) ∧
    (strContains "You gave an answer too recently" text = false →
      strContains "not the right answer" text = true →
      strContains "too low" text = false →
      strContains "too high" text = true →
      submit_verdict text = verdictMessage Verdict.WRONG_TOO_HIGH) ∧
    (strContains "You gave an answer too recently" text = false →
      strContains "not the right answer" text = true →
      strContains "too low" text = false →
      strContains "too high" text = false →
      submit_verdict text = verdictMessage Verdict.WRONG) ∧
    (strContains "You gave an answer too recently" text = false →
      strContains "not the right answer" text = false →
      strContains "You don\x27t seem to be solving the right level." text = true →
      submit_verdict text = verdictMessage Verdict.ALREADY_SOLVED) ∧
    (strContains "You gave an answer too recently" text = false →
      strContains "not the right answer" text = false →
      strContains "You don\x27t seem to be solving the right level." text = false →
      submit_verdict text = verdictMessage Verdict.OK) := by
  refine ⟨?_, ?_, ?_, ?_, ?_, ?_⟩ <;>
    intros <;> simp [submit_verdict, verdictMessage, *]

/-- Witness for C1: a body that is exactly the rate-limit phrase is
classified as RATE_LIMITED. -/
theorem submit_classifies_by_ordered_substrings_witness :
    submit_verdict "You gave an answer too recently" = verdictMessage Verdict.RATE_LIMITED :=
  (submit_classifies_by_ordered_substrings "You gave an answer too recently").1 (by decide)

/-! ## Session resolution (`load_session` in both scripts)

A candidate is either an optional string (an explicit CLI value or the
value of the `AOC_SESSION_ID` environment variable, `none` when unset) or
the state of a credential file (`none` when the file does not exist,
`some content` otherwise).  Both scripts loop over their candidate list:
a string candidate is taken when its stripped value is non-empty; a file
candidate is taken as soon as the file exists, returning its stripped
content. -/

inductive SessionCand where
  | str : Option String → SessionCand
  | file : Option String → SessionCand

/-- One iteration of the candidate loop shared by both `load_session`
implementations: `isinstance(candidate, str) and candidate.strip()` accepts a
non-blank string; `isinstance(candidate, Path) and candidate.exists()` accepts
an existing file and returns its stripped content. -/
def tryCand : SessionCand → Option String
  | SessionCand.str (some s) => if pyStrip s = "" then none else some (pyStrip s)
  | SessionCand.str none => none
  | SessionCand.file (some content) => some (pyStrip content)
  | SessionCand.file none => none

/-- The candidate loop: first candidate that resolves. -/
def resolveCands (cands : List SessionCand) : Option String :=
  cands.findSome? tryCand

namespace RunEveryDay

/-- `load_session` of `RUN_EVERY_DAY.py` (lines 146-159): explicit CLI value,
then the `AOC_SESSION_ID` environment variable, then the `SessionID.txt`
file; `SystemExit` (modelled as `Except.error`, a non-zero exit) when none
resolves. -/
def load_session (explicit envVar sessionFile : Option String) : Except String String :=
  match resolveCands
      [SessionCand.str explicit, SessionCand.str envVar, SessionCand.file sessionFile] with
  | some s => Except.ok s
  | none => Except.error "Missing session cookie. Set AOC_SESSION_ID or create SessionID.txt"

end RunEveryDay

namespace AocTemplate

/-- `load_session` of `AOC_TEMPLATE.py` (lines 54-71): the `AOC_SESSION_ID`
environment variable, then `SessionID.txt` in the day folder, then
`SessionID.txt` at the repository root; `RuntimeError` (uncaught at import
time, hence a non-zero exit) when none resolves. -/
def load_session (envVar dayFile rootFile : Option String) : Except String String :=
  match resolveCands
      [SessionCand.str envVar, SessionCand.file dayFile, SessionCand.file rootFile] with
  | some s => Except.ok s
  | none =>
    Except.error
      "Missing session cookie. Set AOC_SESSION_ID or place SessionID.txt next to this file or at repo root."

end AocTemplate

/-- Resolution skips a candidate that does not resolve. -/
theorem resolveCands_cons_none (c : SessionCand) (cs : List SessionCand)
    (h : tryCand c = none) : resolveCands (c :: cs) = resolveCands cs := by
  simp [resolveCands, List.findSome?_cons, h]

/-- Resolution stops at the first candidate that resolves. -/
theorem resolveCands_cons_some (c : SessionCand) (cs : List SessionCand) (s : String)
    (h : tryCand c = some s) : resolveCands (c :: cs) = some s := by
  simp [resolveCands, List.findSome?_cons, h]

/-- The property C7 asserts of session resolution, taken from the spec's
words, for comparison against the code: the result is a non-empty string
(or the call fails).  Stated as a Bool over the `RUN_EVERY_DAY.py`
resolver. -/
def returnsNonemptyOrFails (explicit envVar sessionFile : Option String) : Bool :=
  match RunEveryDay.load_session explicit envVar sessionFile with
  | Except.ok s => s != ""
  | Except.error _ => true

/-- Counterexample to C7: with no explicit value and no environment value but
an existing `SessionID.txt` whose content is a single blank, `load_session`
returns the empty string — neither a non-empty result nor a configuration
error. -/
theorem load_session_blank_file_cex :
    returnsNonemptyOrFails none none (some " ") = false := by decide

/-- C7 (amended): resolution order is explicit → environment → file; string
candidates resolve only when stripped non-empty, the file candidate resolves
by existence (returning its stripped content, which may be empty), and the
error exit happens exactly when no candidate resolves. -/
theorem load_session_resolution_order (explicit envVar sessionFile : Option String) :
    (∀ s, explicit = some s → pyStrip s ≠ "" →
      RunEveryDay.load_session explicit envVar sessionFile = Except.ok (pyStrip s)) ∧
    (tryCand (SessionCand.str explicit) = none →
      ∀ s, envVar = some s → pyStrip s ≠ "" →
      RunEveryDay.load_session explicit envVar sessionFile = Except.ok (pyStrip s)) ∧
    (tryCand (SessionCand.str explicit) = none →
      tryCand (SessionCand.str envVar) = none →
      ∀ c, sessionFile = some c →
      RunEveryDay.load_session explicit envVar sessionFile = Except.ok (pyStrip c)) ∧
    (tryCand (SessionCand.str explicit) = none →
      tryCand (SessionCand.str envVar) = none →
      sessionFile = none →
      RunEveryDay.load_session explicit envVar sessionFile =
        Except.error "Missing session cookie. Set AOC_SESSION_ID or create SessionID.txt") := by
  refine ⟨?_, ?_, ?_, ?_⟩
  · rintro s rfl hne
    rw [RunEveryDay.load_session,
      resolveCands_cons_some _ _ (pyStrip s) (by simp [tryCand, hne])]
  · intro h1 s hs hne
    subst hs
    rw [RunEveryDay.load_session, resolveCands_cons_none _ _ h1,
      resolveCands_cons_some _ _ (pyStrip s) (by simp [tryCand, hne])]
  · intro h1 h2 c hc
    subst hc
    rw [RunEveryDay.load_session, resolveCands_cons_none _ _ h1, resolveCands_cons_none _ _ h2,
      resolveCands_cons_some _ _ (pyStrip c) (by simp [tryCand])]
  · intro h1 h2 hf
    subst hf
    rw [RunEveryDay.load_session, resolveCands_cons_none _ _ h1, resolveCands_cons_none _ _ h2,
      resolveCands_cons_none _ _ (by simp [tryCand]), resolveCands]
    rfl

/-- Witness for C7: a whitespace-padded explicit value wins and is stripped. -/
theorem load_session_resolution_order_witness :
    RunEveryDay.load_session (some " abc ") none none = Except.ok (pyStrip " abc ") :=
  (load_session_resolution_order (some " abc ") none none).1 " abc " rfl (by decide)

/-! ## `AOC_TEMPLATE.py`: input fetching and caching

The day folder's files are modelled as a map from filename to optional
content (`none` = the file does not exist).  Paths are relative to the day
folder (`BASE_DIR`). -/

/-- A set of files: path to optional content. -/
def FilesFS : Type := String → Option String

/-- Writing one file (`Path.write_text`). -/
def fsWrite (fs : FilesFS) (path content : String) : FilesFS :=
  fun p => if p = path then some content else fs p

/-- The empty day folder. -/
def emptyFiles : FilesFS := fun _ => none

namespace AocTemplate

/-- `INPUT_CANDIDATES` (`AOC_TEMPLATE.py`, lines 78-82): `input.txt`, the
zero-padded `input_NN.txt`, then the unpadded `input_N.txt`. -/
def INPUT_CANDIDATES (day : Nat) : List String :=
  ["input.txt", "input_" ++ pad2 day ++ ".txt", "input_" ++ toString day ++ ".txt"]

/-- `read_cached_input` (lines 89-94): the content of the first candidate
file that exists, else `none`. -/
def read_cached_input (day : Nat) (fs : FilesFS) : Option String :=
  (INPUT_CANDIDATES day).findSome? fs

/-- `cache_input` (lines 97-103): write the contents to `input.txt` and,
when the name differs, also to `input_NN.txt`.  The contents are written
as passed — no newline stripping happens here. -/
def cache_input (day : Nat) (contents : String) (fs : FilesFS) : FilesFS :=
  let primary := "input.txt"
  let fs1 := fsWrite fs primary contents
  let alt := "input_" ++ pad2 day ++ ".txt"
  if alt ≠ primary then fsWrite fs1 alt contents else fs1

/-- An HTTP response: status code and body text. -/
structure HttpResp where
  status : Nat
  text : String

/-- `fetch_input` (lines 106-114): the response body on HTTP 200, a
`RuntimeError` otherwise. -/
def fetch_input (resp : HttpResp) : Except String String :=
  if resp.status ≠ 200 then
    Except.error
      ("Failed to fetch input (HTTP " ++ toString resp.status ++ "). Check session cookie and year/day.")
  else Except.ok resp.text

/-- `get_input` (lines 117-124): return the cached input when a candidate
file exists; otherwise fetch and cache.  The result carries the returned
contents, the final file state, and whether an HTTP request was issued. -/
def get_input (day : Nat) (fs : FilesFS) (resp : HttpResp) :
    Except String (String × FilesFS × Bool) :=
  match read_cached_input day fs with
  | some cached => Except.ok (cached, fs, false)
  | none =>
    match fetch_input resp with
    | Except.error e => Except.error e
    | Except.ok contents => Except.ok (contents, cache_input day contents fs, true)

end AocTemplate

/-- C10: `get_input` consults the cache candidates in order `input.txt`,
`input_NN.txt`, `input_N.txt`; when one exists it returns that file's
contents verbatim with no HTTP request and no writes; it fetches (and then
caches) exactly when no candidate exists. -/
theorem get_input_prefers_cache (day : Nat) (fs : FilesFS) (resp : AocTemplate.HttpResp) :
    (∀ c, fs "input.txt" = some c →
      AocTemplate.get_input day fs resp = Except.ok (c, fs, false)) ∧
    (fs "input.txt" = none →
      ∀ c, fs ("input_" ++ pad2 day ++ ".txt") = some c →
      AocTemplate.get_input day fs resp = Except.ok (c, fs, false)) ∧
    (fs "input.txt" = none →
      fs ("input_" ++ pad2 day ++ ".txt") = none →
      ∀ c, fs ("input_" ++ toString day ++ ".txt") = some c →
      AocTemplate.get_input day fs resp = Except.ok (c, fs, false)) ∧
    (fs "input.txt" = none →
      fs ("input_" ++ pad2 day ++ ".txt") = none →
      fs ("input_" ++ toString day ++ ".txt") = none →
      resp.status = 200 →
      AocTemplate.get_input day fs resp =
        Except.ok (resp.text, AocTemplate.cache_input day resp.text fs, true)) ∧
    (∀ out, AocTemplate.get_input day fs resp = Except.ok out → out.2.2 = true →
      AocTemplate.read_cached_input day fs = none) := by
  refine ⟨?_, ?_, ?_, ?_, ?_⟩
  · intro c h1
    simp [AocTemplate.get_input, AocTemplate.read_cached_input, AocTemplate.INPUT_CANDIDATES,
      List.findSome?_cons, h1]
  · intro h1 c h2
    simp [AocTemplate.get_input, AocTemplate.read_cached_input, AocTemplate.INPUT_CANDIDATES,
      List.findSome?_cons, h1, h2]
  · intro h1 h2 c h3
    simp [AocTemplate.get_input, AocTemplate.read_cached_input, AocTemplate.INPUT_CANDIDATES,
      List.findSome?_cons, h1, h2, h3]
  · intro h1 h2 h3 hst
    simp [AocTemplate.get_input, AocTemplate.read_cached_input, AocTemplate.INPUT_CANDIDATES,
      List.findSome?_cons, h1, h2, h3, AocTemplate.fetch_input, hst]
  · intro out hout hfetched
    cases hcache : AocTemplate.read_cached_input day fs with
    | none => rfl
    | some cached =>
      rw [AocTemplate.get_input, hcache] at hout
      cases hout
      cases hfetched

/-- Witness for C10: with `input.txt` present, `get_input` returns its
contents, leaves the files untouched and issues no request. -/
theorem get_input_prefers_cache_witness :
    AocTemplate.get_input 4 (fsWrite emptyFiles "input.txt" "data") ⟨500, "ignored"⟩ =
      Except.ok ("data", fsWrite emptyFiles "input.txt" "data", false) :=
  (get_input_prefers_cache 4 (fsWrite emptyFiles "input.txt" "data") ⟨500, "ignored"⟩).1
    "data" (by rfl)

/-! ## `RUN_EVERY_DAY.py`: the day scaffolder

Side effects are recorded as an event list (directory creations and file
writes); the filesystem state is a file map plus a directory set, and
applying an event list folds it into the state.  Paths are relative to the
repository root, as in the script (it runs from the repository root). -/

/-- A filesystem side effect of the scaffolder. -/
inductive FsEvent where
  | mkdir : String → FsEvent
  | write : String → String → FsEvent
deriving DecidableEq

/-- Filesystem state seen by `RUN_EVERY_DAY.py`: files and directories. -/
structure FS where
  files : String → Option String
  dirs : String → Bool

/-- Apply one event to the state. -/
def applyEvent (fs : FS) : FsEvent → FS
  | FsEvent.mkdir p => { fs with dirs := fun q => if q = p then true else fs.dirs q }
  | FsEvent.write p c => { fs with files := fun q => if q = p then some c else fs.files q }

/-- Apply an event list in order. -/
def applyEvents (fs : FS) (evs : List FsEvent) : FS :=
  evs.foldl applyEvent fs

/-- The empty filesystem. -/
def emptyFS : FS := ⟨fun _ => none, fun _ => false⟩

/-- The first content written to path `p` by an event, if any. -/
def writeAt (p : String) : FsEvent → Option String
  | FsEvent.write q c => if q = p then some c else none
  | FsEvent.mkdir _ => none

/-- The content of the first write to `p` in an event list. -/
def firstWriteTo (evs : List FsEvent) (p : String) : Option String :=
  evs.findSome? (writeAt p)

/-- Whether some event writes to path `p`. -/
def writesPath (evs : List FsEvent) (p : String) : Bool :=
  (firstWriteTo evs p).isSome

namespace RunEveryDay

/-- `Day_{day:02d}`. -/
def dayDirName (day : Nat) : String := "Day_" ++ pad2 day

/-- `day_dir / "instructions-one.md"`. -/
def insOnePath (day : Nat) : String := dayDirName day ++ "/instructions-one.md"

/-- `day_dir / "instructions-two.md"`. -/
def insTwoPath (day : Nat) : String := dayDirName day ++ "/instructions-two.md"

/-- `day_dir / f"Example_{day:02d}.txt"`. -/
def examplePath (day : Nat) : String := dayDirName day ++ "/Example_" ++ pad2 day ++ ".txt"

/-- `day_dir / f"input_{day:02d}.txt"`. -/
def inputPath (day : Nat) : String := dayDirName day ++ "/input_" ++ pad2 day ++ ".txt"

/-- `day_dir / f"Solution_{day:02d}.py"`. -/
def solutionPath (day : Nat) : String := dayDirName day ++ "/Solution_" ++ pad2 day ++ ".py"

/-- `f"day{day:02d}"`, the Cargo binary name. -/
def binName (day : Nat) : String := "day" ++ pad2 day

/-- `day_dir / f"day{day:02d}.rs"`. -/
def rustBinPath (day : Nat) : String := dayDirName day ++ "/" ++ binName day ++ ".rs"

/-- `TEMPLATE_FILE = Path("AOC_TEMPLATE.py")`. -/
def TEMPLATE_FILE : String := "AOC_TEMPLATE.py"

/-- `RUST_FALLBACK` (`RUN_EVERY_DAY.py`, lines 28-135), the built-in Rust
template used when the Rust template file is missing.  Braces, apostrophes
and hash signs are written with \x escapes. -/
def RUST_FALLBACK : String := "use anyhow::\x7banyhow, bail, Result\x7d;\nuse aoc2025::\x7bconfirm_prompt, detect_part, get_input, lines, load_example, submit_answer, time, DEFAULT_YEAR\x7d;\n\nconst DAY: u8 = \x7b\x7bDAY\x7d\x7d;\n\nfn part1(input: &str) -> Result<i64> \x7b\n    // TODO: implement real logic\n    Ok(lines(input).count() as i64)\n\x7d\n\nfn part2(input: &str) -> Result<i64> \x7b\n    // TODO: implement real logic\n    Ok(input.lines().map(|l| l.len() as i64).sum())\n\x7d\n\n\x23[derive(Debug, Default)]\nstruct Args \x7b\n    part: Option<u8>,\n    year: i32,\n    example: bool,\n    submit: bool,\n    no_confirm: bool,\n\x7d\n\nfn parse_args() -> Result<Args> \x7b\n    let mut args = Args \x7b\n        year: DEFAULT_YEAR,\n        ..Default::default()\n    \x7d;\n\n    let mut iter = std::env::args().skip(1);\n    while let Some(arg) = iter.next() \x7b\n        match arg.as_str() \x7b\n            \"--part\" => \x7b\n                let val = iter\n                    .next()\n                    .ok_or_else(|| anyhow!(\"--part requires a value\"))?;\n                args.part = Some(val.parse()?);\n            \x7d\n            \"--year\" => \x7b\n                let val = iter\n                    .next()\n                    .ok_or_else(|| anyhow!(\"--year requires a value\"))?;\n                args.year = val.parse()?;\n            \x7d\n            \"--example\" => args.example = true,\n            \"--submit\" => args.submit = true,\n            \"--no-confirm\" => args.no_confirm = true,\n            \"--help\" | \"-h\" => \x7b\n                print_usage();\n                std::process::exit(0);\n            \x7d\n            other => bail!(\"Unknown argument: \x7bother\x7d\"),\n        \x7d\n    \x7d\n\n    Ok(args)\n\x7d\n\nfn print_usage() \x7b\n    eprintln!(\n        \"Day \x7bday\x7d runner\n  --part <1|2>     Force part (default: detect instructions-two.md)\n  --year <YYYY>    Override year (default: \x7b\x7d)\n  --example        Use Example_\x7bday_pad\x7d.txt if present\n  --submit         Submit the computed answer\n  --no-confirm     Skip prompt when submitting\n\",\n        DEFAULT_YEAR\n    );\n\x7d\n\nfn main() -> Result<()> \x7b\n    let args = parse_args()?;\n    let part = args.part.unwrap_or_else(|| detect_part(DAY));\n\n    let raw = if args.example \x7b\n        load_example(DAY)?\n    \x7d else \x7b\n        get_input(DAY, args.year)?\n    \x7d;\n\n    let (ans1, t1) = time(|| part1(&raw).unwrap());\n    println!(\"Part 1: \x7bans1\x7d (\x7bt1\x7d ms)\");\n\n    let (ans2, t2) = time(|| part2(&raw).unwrap());\n    println!(\"Part 2: \x7bans2\x7d (\x7bt2\x7d ms)\");\n\n    if args.submit \x7b\n        let answer = match part \x7b\n            1 => ans1,\n            2 => ans2,\n            _ => bail!(\"Part must be 1 or 2\"),\n        \x7d;\n\n        if !args.no_confirm \x7b\n            confirm_prompt()?;\n        \x7d\n\n        let verdict = submit_answer(DAY, part, answer, args.year)?;\n        println!(\"Submission verdict: \x7bverdict\x7d\");\n    \x7d\n\n    Ok(())\n\x7d\n"

/-- `save_markdown` (lines 170-173) writes the Markdown conversion of an
article, stripped of leading/trailing newlines.  The `html2text` conversion
is an external collaborator, passed as `conv`. -/
def save_markdown (conv : String → String) (article : String) (path : String) : FsEvent :=
  FsEvent.write path (stripNLBoth (conv article))

/-- `save_input` (lines 176-177): write the text with trailing newlines
stripped to `input_NN.txt` in the day folder. -/
def save_input (text : String) (day : Nat) : FsEvent :=
  FsEvent.write (inputPath day) (rstripNL text)

/-- The parsed puzzle page: HTTP status, the `article` elements found by the
HTML parser, and the text of the first `article pre code` block, if any
(`get_text("\n")`, before stripping). -/
structure PageResponse where
  status : Nat
  articles : List String
  exampleBlock : Option String

/-- `extract_example` (lines 180-184): the first code block's text with
trailing newlines stripped, if a block is present. -/
def extract_example (page : PageResponse) : Option String :=
  page.exampleBlock.map rstripNL

/-- The scaffolder configuration taken from the CLI in `main`:
`copy_template = not args.skip_template`, `force_template`,
`scaffold_rust = not args.no_rust`, `cargo_toml = Path("Cargo.toml")`, and
the Rust template path (default `AOC_TEMPLATE.rs`). -/
structure Config where
  copy_template : Bool
  force_template : Bool
  scaffold_rust : Bool
  cargoPath : String
  rustTemplatePath : String

/-- `copy_python_template` (lines 208-218): skip when the stub exists and
force is unset; otherwise copy `AOC_TEMPLATE.py` verbatim when it exists,
else only log a warning. -/
def copy_python_template (day : Nat) (force_template : Bool) (fs : FS) : List FsEvent :=
  if (fs.files (solutionPath day)).isSome && !force_template then []
  else
    match fs.files TEMPLATE_FILE with
    | some tmpl => [FsEvent.write (solutionPath day) tmpl]
    | none => []

/-- The `{{DAY}}`/`{{DAY_PAD}}` substitution of `scaffold_rust_bin`
(lines 227-229). -/
def substDay (day : Nat) (contents : String) : String :=
  pyReplace (pyReplace contents "\x7b\x7bDAY\x7d\x7d" (toString day)) "\x7b\x7bDAY_PAD\x7d\x7d" (pad2 day)

/-- The Cargo registration block built in `register_bin_in_cargo`
(line 245). -/
def binBlock (day : Nat) : String :=
  "\n[[bin]]\n" ++ "name = \"" ++ binName day ++ "\"\n" ++
    "path = \"" ++ dayDirName day ++ "/" ++ binName day ++ ".rs\"\n"

/-- Whether `re.search(rf'name\s*=\s*"\x7bre.escape(name)\x7d"', text)` finds a
match at the head of `cs`: the literal `name`, optional whitespace, `=`,
optional whitespace, then the quoted name. -/
def matchNameAt (name : String) (cs : List Char) : Bool :=
  match cs with
  | 'n' :: 'a' :: 'm' :: 'e' :: rest =>
    match rest.dropWhile pyWs with
    | '=' :: rest2 => ("\"" ++ name ++ "\"").data.isPrefixOf (rest2.dropWhile pyWs)
    | _ => false
  | _ => false

/-- The `re.search` of `register_bin_in_cargo` (line 242): the pattern can
match starting at any position. -/
def hasNameEntry (name : String) (text : String) : Bool :=
  text.data.tails.any (matchNameAt name)

/-- `register_bin_in_cargo` (lines 235-247): nothing when the manifest is
missing or already mentions the name; otherwise append the block to the
right-stripped manifest plus a final newline. -/
def register_bin_in_cargo (day : Nat) (cargoPath : String) (fs : FS) : List FsEvent :=
  match fs.files cargoPath with
  | none => []
  | some text =>
    if hasNameEntry (binName day) text then []
    else [FsEvent.write cargoPath (rstripWs text ++ binBlock day ++ "\n")]

/-- `scaffold_rust_bin` (lines 221-232): write the substituted template (or
`RUST_FALLBACK`) when the bin file does not exist — there is no force flag
here — then register the bin in Cargo. -/
def scaffold_rust_bin (day : Nat) (cargoPath rustTemplatePath : String) (fs : FS) :
    List FsEvent :=
  let binEvs :=
    if (fs.files (rustBinPath day)).isSome then []
    else
      [FsEvent.write (rustBinPath day)
        (substDay day ((fs.files rustTemplatePath).getD RUST_FALLBACK))]
  binEvs ++ register_bin_in_cargo day cargoPath (applyEvents fs binEvs)

/-- `precreate_day` (lines 187-205): make the day folder, then drop the
templates according to the flags. -/
def precreate_day (cfg : Config) (day : Nat) (fs : FS) : List FsEvent :=
  let e0 := [FsEvent.mkdir (dayDirName day)]
  let fs0 := applyEvents fs e0
  let e1 := if cfg.copy_template then copy_python_template day cfg.force_template fs0 else []
  let fs1 := applyEvents fs0 e1
  let e2 := if cfg.scaffold_rust then scaffold_rust_bin day cfg.cargoPath cfg.rustTemplatePath fs1 else []
  e0 ++ e1 ++ e2

/-- The input-download response used inside `process_day`. -/
structure InputResponse where
  status : Nat
  text : String

/-- `process_day` (lines 250-317): fetch-and-classify one day.  Returns the
event list of its side effects and the `bool` the function returns (`false`
halts the range driver).  404 precreates the folder and halts; any other
non-200 status skips the day; on 200 with no articles it halts; otherwise it
writes the instruction files, the example (when the extracted text is
non-empty — Python truthiness), the input (when the input download returns
200), and then scaffolds the templates. -/
def process_day (cfg : Config) (conv : String → String) (day : Nat)
    (page : PageResponse) (inputResp : InputResponse) (fs : FS) : List FsEvent × Bool :=
  if page.status = 404 then
    (precreate_day cfg day fs, false)
  else if page.status ≠ 200 then
    ([], true)
  else
    match page.articles with
    | [] => ([], false)
    | a :: rest =>
      let e0 := [FsEvent.mkdir (dayDirName day), save_markdown conv a (insOnePath day)]
      let e1 :=
        match rest with
        | [] => []
        | b :: _ => [save_markdown conv b (insTwoPath day)]
      let e2 :=
        match extract_example page with
        | some ex => if ex ≠ "" then [FsEvent.write (examplePath day) ex] else []
        | none => []
      let e3 := if inputResp.status = 200 then [save_input inputResp.text day] else []
      let fsA := applyEvents fs (e0 ++ e1 ++ e2 ++ e3)
      let e4 := if cfg.copy_template then copy_python_template day cfg.force_template fsA else []
      let fsB := applyEvents fsA e4
      let e5 := if cfg.scaffold_rust then scaffold_rust_bin day cfg.cargoPath cfg.rustTemplatePath fsB else []
      (e0 ++ e1 ++ e2 ++ e3 ++ e4 ++ e5, true)

/-- The day-range loop of `main` (lines 374-387): process each day in order,
breaking as soon as `process_day` returns `false`.  Pages and input
responses are functions of the day; the result is the final filesystem and
the list of days that were actually fetched. -/
def run_days (cfg : Config) (conv : String → String) (fetch : Nat → PageResponse)
    (ifetch : Nat → InputResponse) : FS → List Nat → FS × List Nat
  | fs, [] => (fs, [])
  | fs, d :: rest =>
    let r := process_day cfg conv d (fetch d) (ifetch d) fs
    let fs1 := applyEvents fs r.1
    if r.2 then
      let rec1 := run_days cfg conv fetch ifetch fs1 rest
      (rec1.1, d :: rec1.2)
    else (fs1, [d])

end RunEveryDay

/-! ## Generic lemmas about events and filesystem states -/

/-- No write in the empty event list. -/
theorem firstWriteTo_nil (p : String) : firstWriteTo [] p = none := rfl

/-- First write over an appended event list. -/
theorem firstWriteTo_append (l1 l2 : List FsEvent) (p : String) :
    firstWriteTo (l1 ++ l2) p = (firstWriteTo l1 p).or (firstWriteTo l2 p) :=
  List.findSome?_append

/-- No event of the list writes to `p`. -/
theorem firstWriteTo_eq_none (evs : List FsEvent) (p : String)
    (h : ∀ e ∈ evs, writeAt p e = none) : firstWriteTo evs p = none := by
  induction evs with
  | nil => rfl
  | cons e rest ih =>
    rw [firstWriteTo, List.findSome?_cons, h e (List.mem_cons_self e rest)]
    exact ih fun x hx => h x (List.mem_cons_of_mem e hx)

/-- A write to a different path is invisible at `p`. -/
theorem writeAt_ne (p q : String) (c : String) (h : q ≠ p) :
    writeAt p (FsEvent.write q c) = none := by
  simp [writeAt, h]

/-- An event on `if b then l else []` writes nothing at `p` when `l` does not. -/
theorem firstWriteTo_if_none (b : Bool) (l : List FsEvent) (p : String)
    (h : firstWriteTo l p = none) : firstWriteTo (if b then l else []) p = none := by
  cases b
  · rfl
  · exact h

/-- Applying events never deletes a directory: a directory present before
stays present. -/
theorem applyEvents_dirs_mono (evs : List FsEvent) (fs : FS) (p : String)
    (h : fs.dirs p = true) : (applyEvents fs evs).dirs p = true := by
  induction evs generalizing fs with
  | nil => exact h
  | cons e rest ih =>
    have hstep : (applyEvent fs e).dirs p = true := by
      cases e with
      | mkdir q => by_cases hpq : p = q <;> simp [applyEvent, hpq, h]
      | write q c => simpa [applyEvent] using h
    exact ih (applyEvent fs e) hstep

/-- Applying an appended event list is sequential application. -/
theorem applyEvents_append (fs : FS) (l1 l2 : List FsEvent) :
    applyEvents fs (l1 ++ l2) = applyEvents (applyEvents fs l1) l2 := by
  simp only [applyEvents]
  exact List.foldl_append _ _ _ _

/-! ## C2: input persistence -/

/-- Counterexample to C2: the harness's `cache_input` writes the response
body as-is — after caching the body `"3\n1\n2\n"`, `input.txt` holds
`"3\n1\n2\n"`, not the claimed `"3\n1\n2"`. -/
theorem cache_input_keeps_trailing_newline_cex :
    AocTemplate.cache_input 4 "3\n1\n2\n" emptyFiles "input.txt" = some "3\n1\n2\n" ∧
    ("3\n1\n2\n" : String) ≠ "3\n1\n2" := by decide

/-- C2 (amended): the scaffolder's `save_input` writes the body with
trailing newlines stripped, to `Day_NN/input_NN.txt` only; the harness's
`cache_input` writes the raw body unmodified to both `input.txt` and
`input_NN.txt` and touches no other file. -/
theorem input_download_persistence (day : Nat) (text : String) (fs : FilesFS)
    (hday : day < 26) :
    RunEveryDay.save_input text day =
      FsEvent.write (RunEveryDay.inputPath day) (rstripNL text) ∧
    AocTemplate.cache_input day text fs "input.txt" = some text ∧
    AocTemplate.cache_input day text fs ("input_" ++ pad2 day ++ ".txt") = some text ∧
    (∀ p, p ≠ "input.txt" → p ≠ "input_" ++ pad2 day ++ ".txt" →
      AocTemplate.cache_input day text fs p = fs p) := by
  have hne : ("input_" ++ pad2 day ++ ".txt") ≠ "input.txt" := by
    have key : ∀ d, d < 26 → ("input_" ++ pad2 d ++ ".txt") ≠ "input.txt" := by decide
    exact key day hday
  refine ⟨rfl, ?_, ?_, ?_⟩
  · simp [AocTemplate.cache_input, fsWrite, hne, Ne.symm hne]
  · simp [AocTemplate.cache_input, fsWrite, hne]
  · intro p hp1 hp2
    simp [AocTemplate.cache_input, fsWrite, hne, hp1, hp2]

/-- Witness for C2 (amended): day 4, body `"3\n1\n2\n"`. -/
theorem input_download_persistence_witness :
    RunEveryDay.save_input "3\n1\n2\n" 4 =
      FsEvent.write (RunEveryDay.inputPath 4) "3\n1\n2" ∧
    AocTemplate.cache_input 4 "3\n1\n2\n" emptyFiles ("input_" ++ pad2 4 ++ ".txt") =
      some "3\n1\n2\n" := by
  have h := input_download_persistence 4 "3\n1\n2\n" emptyFiles (by decide)
  exact ⟨h.1.trans (by decide), h.2.2.1⟩

/-! ## C3: overwrite policy for existing stubs -/

/-- A filesystem holding an existing Rust stub for day 3 plus a Rust
template file. -/
def fsRustStub : FS :=
  ⟨fun p =>
    if p = RunEveryDay.rustBinPath 3 then some "old"
    else if p = "AOC_TEMPLATE.rs" then some "fresh"
    else none,
   fun _ => false⟩

/-- The scaffolder configuration with the force flag set. -/
def cfgForce : RunEveryDay.Config :=
  ⟨true, true, true, "Cargo.toml", "AOC_TEMPLATE.rs"⟩

/-- Counterexample to C3: with the force flag set and an existing Rust stub,
a scaffolder run never writes the stub path, and the stub's content stays
`"old"` instead of being replaced with fresh template content. -/
theorem force_flag_ignored_for_rust_cex :
    writesPath (RunEveryDay.precreate_day cfgForce 3 fsRustStub)
      (RunEveryDay.rustBinPath 3) = false ∧
    (applyEvents fsRustStub (RunEveryDay.precreate_day cfgForce 3 fsRustStub)).files
      (RunEveryDay.rustBinPath 3) = some "old" := by decide

/-- C3 (amended): with the force flag unset an existing stub is untouched in
both languages; with the force flag set the Python stub is replaced with the
template file's content whenever the template file exists; the Rust stub is
never overwritten once present — `scaffold_rust_bin` has no force handling. -/
theorem stub_overwrite_policy (day : Nat) (rtp : String) (fs : FS) (hday : day < 26) :
    (∀ c, fs.files (RunEveryDay.solutionPath day) = some c →
      RunEveryDay.copy_python_template day false fs = []) ∧
    (∀ t, fs.files RunEveryDay.TEMPLATE_FILE = some t →
      RunEveryDay.copy_python_template day true fs =
        [FsEvent.write (RunEveryDay.solutionPath day) t]) ∧
    (∀ c, fs.files (RunEveryDay.rustBinPath day) = some c →
      firstWriteTo (RunEveryDay.scaffold_rust_bin day "Cargo.toml" rtp fs)
        (RunEveryDay.rustBinPath day) = none) := by
  refine ⟨?_, ?_, ?_⟩
  · intro c h
    simp [RunEveryDay.copy_python_template, h]
  · intro t h
    simp [RunEveryDay.copy_python_template, h]
  · intro c h
    have hne : "Cargo.toml" ≠ RunEveryDay.rustBinPath day := by
      have key : ∀ d, d < 26 → "Cargo.toml" ≠ RunEveryDay.rustBinPath d := by decide
      exact key day hday
    rw [RunEveryDay.scaffold_rust_bin]
    simp only [h, Option.isSome_some, if_true, List.nil_append]
    apply firstWriteTo_eq_none
    intro e he
    rw [RunEveryDay.register_bin_in_cargo] at he
    rcases hc : (applyEvents fs []).files "Cargo.toml" with _ | text
    · simp [hc] at he
    · simp only [hc] at he
      by_cases hn : RunEveryDay.hasNameEntry (RunEveryDay.binName day) text = true
      · simp [hn] at he
      · simp [hn] at he
        subst he
        exact writeAt_ne _ _ _ hne

/-- A filesystem holding only an existing Python stub for day 4. -/
def fsStub4 : FS :=
  ⟨fun p => if p = RunEveryDay.solutionPath 4 then some "mine" else none, fun _ => false⟩

/-- Witness for C3 (amended): day 4, an existing Python stub is kept when
the force flag is unset. -/
theorem stub_overwrite_policy_witness :
    RunEveryDay.copy_python_template 4 false fsStub4 = [] :=
  (stub_overwrite_policy 4 "AOC_TEMPLATE.rs" fsStub4 (by decide)).1 "mine" (by decide)

/-! ## C6: content of freshly scaffolded stubs -/

/-- A filesystem holding only a Python template whose content carries a
day-number placeholder. -/
def fsPyTemplate : FS :=
  ⟨fun p => if p = "AOC_TEMPLATE.py" then some "DAY = \x7b\x7bDAY\x7d\x7d" else none,
   fun _ => false⟩

/-- Counterexample to C6: the Python scaffolder copies the template file
byte-for-byte — a template containing a `\x7b\x7bDAY\x7d\x7d` placeholder is written
with the placeholder intact, not with the day number substituted (which
would give `"DAY = 3"`). -/
theorem python_template_copied_verbatim_cex :
    RunEveryDay.copy_python_template 3 false fsPyTemplate =
      [FsEvent.write (RunEveryDay.solutionPath 3) "DAY = \x7b\x7bDAY\x7d\x7d"] ∧
    RunEveryDay.substDay 3 "DAY = \x7b\x7bDAY\x7d\x7d" = "DAY = 3" ∧
    ("DAY = \x7b\x7bDAY\x7d\x7d" : String) ≠ "DAY = 3" := by decide

/-- C6 (amended): when the stub does not exist, the Python scaffolder copies
the template file verbatim to `Solution_NN.py` (the day number appears only
in the destination filename), while the Rust scaffolder writes the template
file — or the built-in fallback when that file is missing — with `\x7b\x7bDAY\x7d\x7d`
replaced by the day number and `\x7b\x7bDAY_PAD\x7d\x7d` by the zero-padded day number,
to `dayNN.rs`. -/
theorem fresh_stub_contents (day : Nat) (force : Bool) (cp rtp : String) (fs : FS) :
    (fs.files (RunEveryDay.solutionPath day) = none →
      ∀ t, fs.files RunEveryDay.TEMPLATE_FILE = some t →
      RunEveryDay.copy_python_template day force fs =
        [FsEvent.write (RunEveryDay.solutionPath day) t]) ∧
    (fs.files (RunEveryDay.rustBinPath day) = none →
      ∀ t, fs.files rtp = some t →
      firstWriteTo (RunEveryDay.scaffold_rust_bin day cp rtp fs)
        (RunEveryDay.rustBinPath day) = some (RunEveryDay.substDay day t)) ∧
    (fs.files (RunEveryDay.rustBinPath day) = none →
      fs.files rtp = none →
      firstWriteTo (RunEveryDay.scaffold_rust_bin day cp rtp fs)
        (RunEveryDay.rustBinPath day) = some (RunEveryDay.substDay day RunEveryDay.RUST_FALLBACK)) := by
  refine ⟨?_, ?_, ?_⟩
  · intro hn t ht
    simp [RunEveryDay.copy_python_template, hn, ht]
  · intro hn t ht
    rw [RunEveryDay.scaffold_rust_bin]
    simp [hn, ht, firstWriteTo, List.findSome?_cons, writeAt]
  · intro hn ht
    rw [RunEveryDay.scaffold_rust_bin]
    simp [hn, ht, firstWriteTo, List.findSome?_cons, writeAt]

/-- A filesystem holding only a Rust template file with both placeholders. -/
def fsRustTemplate : FS :=
  ⟨fun p => if p = "AOC_TEMPLATE.rs" then some "D=\x7b\x7bDAY\x7d\x7d P=\x7b\x7bDAY_PAD\x7d\x7d" else none,
   fun _ => false⟩

/-- Witness for C6 (amended): day 5, a Rust template with both placeholders
is substituted on scaffolding. -/
theorem fresh_stub_contents_witness :
    firstWriteTo
      (RunEveryDay.scaffold_rust_bin 5 "Cargo.toml" "AOC_TEMPLATE.rs" fsRustTemplate)
      (RunEveryDay.rustBinPath 5) =
      some (RunEveryDay.substDay 5 "D=\x7b\x7bDAY\x7d\x7d P=\x7b\x7bDAY_PAD\x7d\x7d") :=
  (fresh_stub_contents 5 false "Cargo.toml" "AOC_TEMPLATE.rs" fsRustTemplate).2.1
    (by decide) "D=\x7b\x7bDAY\x7d\x7d P=\x7b\x7bDAY_PAD\x7d\x7d" (by decide)

/-! ## C8: idempotent Cargo registration -/

/-- String concatenation concatenates the character data. -/
@[simp] theorem string_data_append (s t : String) : (s ++ t).data = s.data ++ t.data := rfl

/-- The registration search pattern matches at the head of
`name` ` = "` name `"` followed by anything. -/
theorem matchNameAt_head (name : String) (R : List Char) :
    RunEveryDay.matchNameAt name
      ('n':: 'a':: 'm':: 'e':: ' ':: '=':: ' ':: '"'::(name.data ++ '"'::R)) = true := by
  simp [RunEveryDay.matchNameAt, List.dropWhile_cons, pyWs]

/-- Any text containing a literal `name = "<name>"` segment (the shape the
appended registration block has) is found by the registration search. -/
theorem hasNameEntry_after_append (name a rest : String) (R : List Char)
    (hrest : rest.data = '"' :: R) :
    RunEveryDay.hasNameEntry name (a ++ ("name = \"" ++ (name ++ rest))) = true := by
  have hname8 : ("name = \"" : String).data = 'n':: 'a':: 'm':: 'e':: ' ':: '=':: ' ':: '"'::[] := rfl
  rw [RunEveryDay.hasNameEntry, List.any_eq_true]
  refine ⟨'n':: 'a':: 'm':: 'e':: ' ':: '=':: ' ':: '"'::(name.data ++ '"'::R), ?_,
    matchNameAt_head name R⟩
  rw [List.mem_tails]
  exact ⟨a.data, by simp [hname8, hrest]⟩

/-- The manifest text produced by a registration contains the quoted name in
exactly the searched shape. -/
theorem hasNameEntry_of_registered (day : Nat) (text : String) :
    RunEveryDay.hasNameEntry (RunEveryDay.binName day)
      (rstripWs text ++ RunEveryDay.binBlock day ++ "\n") = true := by
  have hshape :
      rstripWs text ++ RunEveryDay.binBlock day ++ "\n" =
        (rstripWs text ++ "\n[[bin]]\n") ++
          ("name = \"" ++ (RunEveryDay.binName day ++
            ("\"\n" ++ ("path = \"" ++ (RunEveryDay.dayDirName day ++
              ("/" ++ (RunEveryDay.binName day ++ (".rs\"\n" ++ "\n")))))))) := by
    simp only [RunEveryDay.binBlock, String.append_assoc]
  rw [hshape]
  exact hasNameEntry_after_append (RunEveryDay.binName day) _ _
    ('\n' :: ("path = \"" ++ (RunEveryDay.dayDirName day ++
      ("/" ++ (RunEveryDay.binName day ++ (".rs\"\n" ++ "\n"))))).data) rfl

/-- C8: registration is idempotent — a second registration of the same day
produces no events (and in general an entry already present means no write,
an absent entry means exactly the documented append). -/
theorem register_bin_in_cargo_idempotent (day : Nat) (cp : String) (fs : FS) :
    RunEveryDay.register_bin_in_cargo day cp
      (applyEvents fs (RunEveryDay.register_bin_in_cargo day cp fs)) = [] ∧
    (∀ text, fs.files cp = some text →
      RunEveryDay.hasNameEntry (RunEveryDay.binName day) text = true →
      RunEveryDay.register_bin_in_cargo day cp fs = []) ∧
    (∀ text, fs.files cp = some text →
      RunEveryDay.hasNameEntry (RunEveryDay.binName day) text = false →
      RunEveryDay.register_bin_in_cargo day cp fs =
        [FsEvent.write cp (rstripWs text ++ RunEveryDay.binBlock day ++ "\n")]) := by
  refine ⟨?_, ?_, ?_⟩
  · rcases hfile : fs.files cp with _ | text
    · simp [RunEveryDay.register_bin_in_cargo, hfile, applyEvents]
    · by_cases hn : RunEveryDay.hasNameEntry (RunEveryDay.binName day) text = true
      · simp [RunEveryDay.register_bin_in_cargo, hfile, hn, applyEvents]
      · have hreg : RunEveryDay.register_bin_in_cargo day cp fs =
            [FsEvent.write cp (rstripWs text ++ RunEveryDay.binBlock day ++ "\n")] := by
          simp [RunEveryDay.register_bin_in_cargo, hfile, hn]
        rw [hreg]
        have hfile2 : (applyEvents fs
            [FsEvent.write cp (rstripWs text ++ RunEveryDay.binBlock day ++ "\n")]).files cp =
            some (rstripWs text ++ RunEveryDay.binBlock day ++ "\n") := by
          simp [applyEvents, applyEvent]
        simp [RunEveryDay.register_bin_in_cargo, hfile2, hasNameEntry_of_registered]
  · intro text hfile hn
    simp [RunEveryDay.register_bin_in_cargo, hfile, hn]
  · intro text hfile hn
    simp [RunEveryDay.register_bin_in_cargo, hfile, hn]

/-- A manifest already containing a `day01` entry. -/
def fsCargo01 : FS :=
  ⟨fun p => if p = "Cargo.toml" then some "name = \"day01\"" else none, fun _ => false⟩

/-- Witness for C8: registering `day01` into a manifest that already names
it produces no events. -/
theorem register_bin_in_cargo_idempotent_witness :
    RunEveryDay.register_bin_in_cargo 1 "Cargo.toml" fsCargo01 = [] :=
  (register_bin_in_cargo_idempotent 1 "Cargo.toml" fsCargo01).2.1
    "name = \"day01\"" (by decide) (by decide)

/-! ## The range driver: classification of a day's outcome (C4, C9) -/

/-- On a 404 the day is precreated and `process_day` returns `false`. -/
theorem process_day_404 (cfg : RunEveryDay.Config) (conv : String → String) (day : Nat)
    (page : RunEveryDay.PageResponse) (iresp : RunEveryDay.InputResponse) (fs : FS)
    (h : page.status = 404) :
    RunEveryDay.process_day cfg conv day page iresp fs =
      (RunEveryDay.precreate_day cfg day fs, false) := by
  simp [RunEveryDay.process_day, h]

/-- On a 200 page with at least one article `process_day` continues the run. -/
theorem process_day_continues (cfg : RunEveryDay.Config) (conv : String → String) (day : Nat)
    (page : RunEveryDay.PageResponse) (iresp : RunEveryDay.InputResponse) (fs : FS)
    (hst : page.status = 200) (hart : page.articles ≠ []) :
    (RunEveryDay.process_day cfg conv day page iresp fs).2 = true := by
  rcases ha : page.articles with _ | ⟨a, rest⟩
  · exact absurd ha hart
  · simp [RunEveryDay.process_day, hst, ha]

/-- The precreated event list starts with the day-folder creation. -/
theorem precreate_day_shape (cfg : RunEveryDay.Config) (day : Nat) (fs : FS) :
    ∃ e1 e2, RunEveryDay.precreate_day cfg day fs =
      [FsEvent.mkdir (RunEveryDay.dayDirName day)] ++ e1 ++ e2 := by
  rw [RunEveryDay.precreate_day]
  exact ⟨_, _, rfl⟩

/-- Precreating a day leaves its folder present. -/
theorem precreate_day_creates_dir (cfg : RunEveryDay.Config) (day : Nat) (fs : FS) :
    (applyEvents fs (RunEveryDay.precreate_day cfg day fs)).dirs
      (RunEveryDay.dayDirName day) = true := by
  obtain ⟨e1, e2, hsh⟩ := precreate_day_shape cfg day fs
  rw [hsh, applyEvents_append, applyEvents_append]
  apply applyEvents_dirs_mono
  apply applyEvents_dirs_mono
  simp [applyEvents, applyEvent]

/-- C4: a 404 day creates the day folder and halts the range: the processed
days are exactly the preceding (released) days plus the 404 day itself — no
later day of the range is fetched. -/
theorem day_404_halts_range (cfg : RunEveryDay.Config) (conv : String → String)
    (fetch : Nat → RunEveryDay.PageResponse) (ifetch : Nat → RunEveryDay.InputResponse)
    (pre : List Nat) (d : Nat) (post : List Nat) (h404 : (fetch d).status = 404) :
    ∀ fs : FS, (∀ p ∈ pre, (fetch p).status = 200 ∧ (fetch p).articles ≠ []) →
      (RunEveryDay.run_days cfg conv fetch ifetch fs (pre ++ d :: post)).2 = pre ++ [d] ∧
      ((RunEveryDay.run_days cfg conv fetch ifetch fs (pre ++ d :: post)).1).dirs
        (RunEveryDay.dayDirName d) = true := by
  induction pre with
  | nil =>
    intro fs _
    rw [List.nil_append]
    rw [RunEveryDay.run_days]
    simp only [process_day_404 cfg conv d (fetch d) (ifetch d) fs h404]
    exact ⟨rfl, precreate_day_creates_dir cfg d fs⟩
  | cons q pre2 ih =>
    intro fs hpre
    have hq := hpre q (List.mem_cons_self q pre2)
    have hcont := process_day_continues cfg conv q (fetch q) (ifetch q) fs hq.1 hq.2
    rw [List.cons_append, RunEveryDay.run_days]
    simp only [hcont, if_true]
    have hrest := ih
      (applyEvents fs (RunEveryDay.process_day cfg conv q (fetch q) (ifetch q) fs).1)
      (fun p hp => hpre p (List.mem_cons_of_mem q hp))
    exact ⟨by rw [List.cons_append]; exact congrArg (q :: ·) hrest.1, hrest.2⟩

/-- The scaffolder configuration used by the concrete witnesses: no template
copying, no Rust scaffolding, the manifest and template paths of `main`. -/
def cfgPlain : RunEveryDay.Config := ⟨false, false, false, "Cargo.toml", "AOC_TEMPLATE.rs"⟩

/-- An identity stand-in for the Markdown converter in witnesses. -/
def sampleConv : String → String := fun s => s

/-- A fetch schedule where day 2 is unreleased (404) and all others carry
one article. -/
def fetch404At2 : Nat → RunEveryDay.PageResponse :=
  fun n => if n = 2 then ⟨404, [], none⟩ else ⟨200, ["art"], none⟩

/-- An input fetch that always fails. -/
def ifetchFail : Nat → RunEveryDay.InputResponse := fun _ => ⟨500, ""⟩

/-- Witness for C4: running days 1,2,3 with day 2 unreleased processes
exactly days 1 and 2 and creates `Day_02`. -/
theorem day_404_halts_range_witness :
    (RunEveryDay.run_days cfgPlain sampleConv fetch404At2 ifetchFail emptyFS
      ([1] ++ 2 :: [3])).2 = [1] ++ [2] ∧
    ((RunEveryDay.run_days cfgPlain sampleConv fetch404At2 ifetchFail emptyFS
      ([1] ++ 2 :: [3])).1).dirs (RunEveryDay.dayDirName 2) = true :=
  day_404_halts_range cfgPlain sampleConv fetch404At2 ifetchFail [1] 2 [3]
    (by decide) emptyFS (by decide)

/-- C9: a day whose page fetch returns a status other than 200 and 404
produces no events (no files written), and the range driver continues with
the next day: the processed-day list is that day consed onto the rest's. -/
theorem transient_status_skips_day (cfg : RunEveryDay.Config) (conv : String → String)
    (fetch : Nat → RunEveryDay.PageResponse) (ifetch : Nat → RunEveryDay.InputResponse)
    (fs : FS) (d : Nat) (rest : List Nat)
    (h404 : (fetch d).status ≠ 404) (h200 : (fetch d).status ≠ 200) :
    RunEveryDay.process_day cfg conv d (fetch d) (ifetch d) fs = ([], true) ∧
    RunEveryDay.run_days cfg conv fetch ifetch fs (d :: rest) =
      ((RunEveryDay.run_days cfg conv fetch ifetch fs rest).1,
        d :: (RunEveryDay.run_days cfg conv fetch ifetch fs rest).2) := by
  have hpd : RunEveryDay.process_day cfg conv d (fetch d) (ifetch d) fs = ([], true) := by
    simp [RunEveryDay.process_day, h404, h200]
  refine ⟨hpd, ?_⟩
  rw [RunEveryDay.run_days]
  simp [hpd, applyEvents]

/-- A fetch schedule that always reports a transient server error. -/
def fetch503 : Nat → RunEveryDay.PageResponse := fun _ => ⟨503, [], none⟩

/-- Witness for C9: a 503 day writes nothing and the driver goes on to the
next day. -/
theorem transient_status_skips_day_witness :
    RunEveryDay.process_day cfgPlain sampleConv 7 (fetch503 7) (ifetchFail 7) emptyFS =
      ([], true) ∧
    RunEveryDay.run_days cfgPlain sampleConv fetch503 ifetchFail emptyFS [7, 8] =
      ((RunEveryDay.run_days cfgPlain sampleConv fetch503 ifetchFail emptyFS [8]).1,
        7 :: (RunEveryDay.run_days cfgPlain sampleConv fetch503 ifetchFail emptyFS [8]).2) :=
  transient_status_skips_day cfgPlain sampleConv fetch503 ifetchFail emptyFS 7 [8]
    (by decide) (by decide)

/-! ## C5: instruction files written per article count -/

/-- Python-template copying emits either nothing or one write to the
day's solution stub. -/
theorem copy_python_template_shape (day : Nat) (f : Bool) (fs : FS) :
    RunEveryDay.copy_python_template day f fs = [] ∨
    ∃ t, RunEveryDay.copy_python_template day f fs =
      [FsEvent.write (RunEveryDay.solutionPath day) t] := by
  rw [RunEveryDay.copy_python_template]
  by_cases hc : (fs.files (RunEveryDay.solutionPath day)).isSome && !f
  · left; simp [hc]
  · rcases ht : fs.files RunEveryDay.TEMPLATE_FILE with _ | t
    · left; simp [hc, ht]
    · right; exact ⟨t, by simp [hc, ht]⟩

/-- Cargo registration only ever writes the manifest. -/
theorem register_bin_in_cargo_members (day : Nat) (cp : String) (fs : FS) :
    ∀ e ∈ RunEveryDay.register_bin_in_cargo day cp fs, ∃ t, e = FsEvent.write cp t := by
  intro e he
  rw [RunEveryDay.register_bin_in_cargo] at he
  rcases hc : fs.files cp with _ | text
  · rw [hc] at he; simp at he
  · rw [hc] at he
    by_cases hn : RunEveryDay.hasNameEntry (RunEveryDay.binName day) text = true
    · simp [hn] at he
    · simp [hn] at he
      exact ⟨_, he⟩

/-- Rust scaffolding only ever writes the day's bin file or the manifest. -/
theorem scaffold_rust_bin_members (day : Nat) (cp rtp : String) (fs : FS) :
    ∀ e ∈ RunEveryDay.scaffold_rust_bin day cp rtp fs,
      (∃ t, e = FsEvent.write (RunEveryDay.rustBinPath day) t) ∨
      (∃ t, e = FsEvent.write cp t) := by
  intro e he
  simp only [RunEveryDay.scaffold_rust_bin] at he
  rcases List.mem_append.mp he with hbin | hreg
  · rcases hex : (fs.files (RunEveryDay.rustBinPath day)).isSome with _ | _
    · rw [hex] at hbin
      simp at hbin
      exact Or.inl ⟨_, hbin⟩
    · rw [hex] at hbin
      simp at hbin
  · exact Or.inr (register_bin_in_cargo_members day cp _ e hreg)

/-- The per-day artifact paths are pairwise distinct from the
`instructions-two` path (days of the model range 1–25). -/
theorem c5_paths (d : Nat) (hd : d < 26) :
    RunEveryDay.insOnePath d ≠ RunEveryDay.insTwoPath d ∧
    RunEveryDay.examplePath d ≠ RunEveryDay.insTwoPath d ∧
    RunEveryDay.inputPath d ≠ RunEveryDay.insTwoPath d ∧
    RunEveryDay.solutionPath d ≠ RunEveryDay.insTwoPath d ∧
    RunEveryDay.rustBinPath d ≠ RunEveryDay.insTwoPath d ∧
    ("Cargo.toml" : String) ≠ RunEveryDay.insTwoPath d := by
  have key : ∀ x, x < 26 →
      (RunEveryDay.insOnePath x ≠ RunEveryDay.insTwoPath x ∧
       RunEveryDay.examplePath x ≠ RunEveryDay.insTwoPath x ∧
       RunEveryDay.inputPath x ≠ RunEveryDay.insTwoPath x ∧
       RunEveryDay.solutionPath x ≠ RunEveryDay.insTwoPath x ∧
       RunEveryDay.rustBinPath x ≠ RunEveryDay.insTwoPath x ∧
       ("Cargo.toml" : String) ≠ RunEveryDay.insTwoPath x) := by decide
  exact key d hd

/-- The `instructions-two` write of `process_day` as a function of the
remaining articles (the article list beyond the first): names the
`match rest` subterm of `process_day`. -/
def insTwoEvents (conv : String → String) (day : Nat) : List String → List FsEvent
  | [] => []
  | b :: _ => [RunEveryDay.save_markdown conv b (RunEveryDay.insTwoPath day)]

/-- On a 200 page whose first article is `a`, the events of `process_day`
are the folder creation and the instruction writes, then the optional
example and input writes, then template events that touch only the solution
stub, the Rust bin and the manifest. -/
theorem process_day_200_shape (cfg : RunEveryDay.Config) (conv : String → String)
    (day : Nat) (page : RunEveryDay.PageResponse) (iresp : RunEveryDay.InputResponse)
    (fs : FS) (hst : page.status = 200) (a : String) (rest : List String)
    (ha : page.articles = a :: rest) :
    ∃ e4 e5,
      (RunEveryDay.process_day cfg conv day page iresp fs).1 =
        [FsEvent.mkdir (RunEveryDay.dayDirName day),
         RunEveryDay.save_markdown conv a (RunEveryDay.insOnePath day)] ++
        insTwoEvents conv day rest ++
        (match RunEveryDay.extract_example page with
         | some ex => if ex ≠ "" then [FsEvent.write (RunEveryDay.examplePath day) ex] else []
         | none => []) ++
        (if iresp.status = 200 then [RunEveryDay.save_input iresp.text day] else []) ++
        e4 ++ e5 ∧
      (e4 = [] ∨ ∃ t, e4 = [FsEvent.write (RunEveryDay.solutionPath day) t]) ∧
      (∀ e ∈ e5, (∃ t, e = FsEvent.write (RunEveryDay.rustBinPath day) t) ∨
        (∃ t, e = FsEvent.write cfg.cargoPath t)) := by
  have h404 : ¬ page.status = 404 := by rw [hst]; decide
  have h200 : ¬ page.status ≠ 200 := by rw [hst]; simp
  rw [RunEveryDay.process_day, if_neg h404, if_neg h200, ha]
  refine ⟨_, _, rfl, ?_, ?_⟩
  · by_cases hct : cfg.copy_template
    · simp only [hct, if_true]
      exact copy_python_template_shape day cfg.force_template _
    · left; simp [hct]
  · intro e he
    by_cases hsr : cfg.scaffold_rust
    · simp only [hsr, if_true] at he
      exact scaffold_rust_bin_members day cfg.cargoPath cfg.rustTemplatePath _ e he
    · simp [hsr] at he

/-- C5: on a fetched 200 page with exactly one article, `instructions-one`
is written (with the converted article) and `instructions-two` is not
written at all; with two or more articles both instruction files are
written, the second article persisted as `instructions-two`. -/
theorem instruction_files_per_article_count (cfg : RunEveryDay.Config)
    (conv : String → String) (day : Nat) (page : RunEveryDay.PageResponse)
    (iresp : RunEveryDay.InputResponse) (fs : FS) (hday : day < 26)
    (hst : page.status = 200) (hcargo : cfg.cargoPath = "Cargo.toml") :
    (∀ a, page.articles = [a] →
      firstWriteTo (RunEveryDay.process_day cfg conv day page iresp fs).1
        (RunEveryDay.insOnePath day) = some (stripNLBoth (conv a)) ∧
      writesPath (RunEveryDay.process_day cfg conv day page iresp fs).1
        (RunEveryDay.insTwoPath day) = false) ∧
    (∀ a b rest2, page.articles = a :: b :: rest2 →
      firstWriteTo (RunEveryDay.process_day cfg conv day page iresp fs).1
        (RunEveryDay.insOnePath day) = some (stripNLBoth (conv a)) ∧
      firstWriteTo (RunEveryDay.process_day cfg conv day page iresp fs).1
        (RunEveryDay.insTwoPath day) = some (stripNLBoth (conv b))) := by
  obtain ⟨hne1, hne2, hne3, hne4, hne5, hne6⟩ := c5_paths day hday
  have hexample : ∀ p : String, RunEveryDay.examplePath day ≠ p →
      firstWriteTo
        (match RunEveryDay.extract_example page with
         | some ex => if ex ≠ "" then [FsEvent.write (RunEveryDay.examplePath day) ex] else []
         | none => []) p = none := by
    intro p hp
    rcases RunEveryDay.extract_example page with _ | ex
    · rfl
    · by_cases hxe : ex ≠ ""
      · simp [hxe, firstWriteTo, List.findSome?_cons, writeAt, hp]
      · simp [hxe, firstWriteTo]
  have hinput : ∀ p : String, RunEveryDay.inputPath day ≠ p →
      firstWriteTo (if iresp.status = 200 then [RunEveryDay.save_input iresp.text day] else [])
        p = none := by
    intro p hp
    by_cases hir : iresp.status = 200
    · simp [hir, firstWriteTo, List.findSome?_cons, writeAt, RunEveryDay.save_input, hp]
    · simp [hir, firstWriteTo]
  constructor
  · intro a ha
    obtain ⟨e4, e5, heq, h4, h5⟩ :=
      process_day_200_shape cfg conv day page iresp fs hst a [] ha
    have h4n : firstWriteTo e4 (RunEveryDay.insTwoPath day) = none := by
      rcases h4 with rfl | ⟨t, rfl⟩
      · rfl
      · simp [firstWriteTo, List.findSome?_cons, writeAt, hne4]
    have h5n : firstWriteTo e5 (RunEveryDay.insTwoPath day) = none := by
      apply firstWriteTo_eq_none
      intro e he
      rcases h5 e he with ⟨t, rfl⟩ | ⟨t, rfl⟩
      · exact writeAt_ne _ _ _ hne5
      · rw [hcargo]; exact writeAt_ne _ _ _ hne6
    constructor
    · rw [heq]
      simp [firstWriteTo_append, firstWriteTo, List.findSome?_cons, writeAt,
        RunEveryDay.save_markdown, insTwoEvents]
    · rw [writesPath, heq]
      have he0 : firstWriteTo
          [FsEvent.mkdir (RunEveryDay.dayDirName day),
           RunEveryDay.save_markdown conv a (RunEveryDay.insOnePath day)]
          (RunEveryDay.insTwoPath day) = none := by
        simp [firstWriteTo, List.findSome?_cons, writeAt, RunEveryDay.save_markdown, hne1]
      simp only [firstWriteTo_append, he0, hexample _ hne2, hinput _ hne3, h4n, h5n,
        insTwoEvents, firstWriteTo_nil]
      rfl
  · intro a b rest2 ha
    obtain ⟨e4, e5, heq, h4, h5⟩ :=
      process_day_200_shape cfg conv day page iresp fs hst a (b :: rest2) ha
    constructor
    · rw [heq]
      simp [firstWriteTo_append, firstWriteTo, List.findSome?_cons, writeAt,
        RunEveryDay.save_markdown, insTwoEvents]
    · rw [heq]
      simp [firstWriteTo_append, firstWriteTo, List.findSome?_cons, writeAt,
        RunEveryDay.save_markdown, insTwoEvents, hne1]

/-- Witness for C5: day 4, a single-article page. -/
theorem instruction_files_per_article_count_witness :
    firstWriteTo
      (RunEveryDay.process_day cfgPlain sampleConv 4 ⟨200, ["art"], none⟩ ⟨500, ""⟩ emptyFS).1
      (RunEveryDay.insOnePath 4) = some (stripNLBoth (sampleConv "art")) ∧
    writesPath
      (RunEveryDay.process_day cfgPlain sampleConv 4 ⟨200, ["art"], none⟩ ⟨500, ""⟩ emptyFS).1
      (RunEveryDay.insTwoPath 4) = false :=
  (instruction_files_per_article_count cfgPlain sampleConv 4 ⟨200, ["art"], none⟩ ⟨500, ""⟩
    emptyFS (by decide) rfl rfl).1 "art" rfl
